import Mathlib

set_option autoImplicit false
set_option linter.unnecessarySeqFocus false
set_option linter.unreachableTactic false
set_option linter.unusedTactic false

/-!
Verification of the invalidation-driven render pipeline of the charting
engine: the invalidation mask lattice, the chart widget controller
(deferred paint scheduling, resize, destroy, draw demultiplexing), the
series pane view dirty-flag protocol, the line-drawing primitive, the
price-axis text-color derivation and the pane layout computation.
-/

/-- Severity levels of an invalidation, ordered None < Light < Full. -/
inductive InvalidationLevel where
  | None
  | Light
  | Full
deriving DecidableEq, Repr, Fintype

namespace InvalidationLevel

/-- Numeric encoding of the severity (matching the enum values 0, 1, 2). -/
def toNat : InvalidationLevel → Nat
  | .None => 0
  | .Light => 1
  | .Full => 2

/-- Maximum of two severities in the None < Light < Full order. -/
def lmax (a b : InvalidationLevel) : InvalidationLevel :=
  if a.toNat ≤ b.toNat then b else a

theorem lmax_assoc (a b c : InvalidationLevel) :
    lmax (lmax a b) c = lmax a (lmax b c) := by
  revert a b c; decide

theorem lmax_self (a : InvalidationLevel) : lmax a a = a := by
  revert a; decide

end InvalidationLevel

/-- Modelled from the spec: the InvalidateMask structure of
model/invalidate-mask, which is missing from the sources (only its
callers in the chart widget are present).  Per the spec it is a lattice
of a global severity level, independent per-pane autoscale-requested
flags, and a global fit-content-requested flag. -/
structure InvalidateMask where
  level : InvalidationLevel
  autoscalePanes : Finset Nat
  fitContent : Bool
deriving DecidableEq

namespace InvalidateMask

/-- Modelled from the spec: merging takes the maximum severity, the union
of the per-pane autoscale flags, and the disjunction of fit-content. -/
def merge (self other : InvalidateMask) : InvalidateMask :=
  { level := InvalidationLevel.lmax self.level other.level
    autoscalePanes := self.autoscalePanes ∪ other.autoscalePanes
    fitContent := self.fitContent || other.fitContent }

/-- Modelled from the spec: the global severity of the mask. -/
def fullInvalidation (self : InvalidateMask) : InvalidationLevel :=
  self.level

/-- Modelled from the spec: getter of the fit-content-requested flag. -/
def getFitContent (self : InvalidateMask) : Bool :=
  self.fitContent

/-- Pane-specific invalidation state extracted from a mask. -/
structure PaneInvalidation where
  level : InvalidationLevel
  autoScale : Bool
deriving DecidableEq, Repr

/-- Modelled from the spec: invalidateForPane extracts the pane-specific
state, defaulting unset panes to the global severity. -/
def invalidateForPane (self : InvalidateMask) (paneIndex : Nat) : PaneInvalidation :=
  { level := self.level
    autoScale := paneIndex ∈ self.autoscalePanes }

theorem merge_assoc (a b c : InvalidateMask) :
    (a.merge b).merge c = a.merge (b.merge c) := by
  simp [merge, InvalidationLevel.lmax_assoc, Finset.union_assoc, Bool.or_assoc]

theorem merge_self (a : InvalidateMask) : a.merge a = a := by
  cases a with
  | mk l p f => simp [merge, InvalidationLevel.lmax_self]

theorem merge_comm (a b : InvalidateMask) : a.merge b = b.merge a := by
  have hl : InvalidationLevel.lmax a.level b.level = InvalidationLevel.lmax b.level a.level := by
    revert a b
    have : ∀ x y : InvalidationLevel, InvalidationLevel.lmax x y = InvalidationLevel.lmax y x := by
      decide
    intro a b; exact this a.level b.level
  simp [merge, hl, Finset.union_comm, Bool.or_comm]

theorem merge_right_comm (x a b : InvalidateMask) :
    (x.merge a).merge b = (x.merge b).merge a := by
  rw [merge_assoc, merge_assoc, merge_comm a b]

end InvalidateMask

/-- A mask of the given severity with no pane flags and no fit-content,
as built by the constructor call new InvalidateMask(level). -/
def InvalidateMask.ofLevel (level : InvalidationLevel) : InvalidateMask :=
  { level := level, autoscalePanes := ∅, fitContent := false }

/-- C1: merging two invalidation masks yields the maximum severity and the
union of the per-pane flag sets; merge is associative and idempotent, so an
accumulation of a sequence of masks by repeated merging equals the fold of
merge over the sequence regardless of grouping, and merging a mask into
itself changes nothing. -/
theorem c1_merge_lattice :
    (∀ a b : InvalidateMask,
      (a.merge b).level = InvalidationLevel.lmax a.level b.level ∧
      (a.merge b).autoscalePanes = a.autoscalePanes ∪ b.autoscalePanes) ∧
    (∀ a b c : InvalidateMask, (a.merge b).merge c = a.merge (b.merge c)) ∧
    (∀ a : InvalidateMask, a.merge a = a) ∧
    (∀ (init : InvalidateMask) (ms : List InvalidateMask),
      ms.foldl InvalidateMask.merge init =
        ms.foldr (fun m acc => InvalidateMask.merge acc m) init) := by
  refine ⟨fun a b => ⟨rfl, rfl⟩, InvalidateMask.merge_assoc, InvalidateMask.merge_self, ?_⟩
  have key : ∀ (ms : List InvalidateMask) (init m : InvalidateMask),
      ms.foldr (fun x acc => InvalidateMask.merge acc x) (init.merge m) =
        (ms.foldr (fun x acc => InvalidateMask.merge acc x) init).merge m := by
    intro ms
    induction ms with
    | nil => intro init m; rfl
    | cons n rest ih =>
      intro init m
      simp only [List.foldr_cons, ih, InvalidateMask.merge_right_comm]
  intro init ms
  induction ms generalizing init with
  | nil => rfl
  | cons m rest ih =>
    simp only [List.foldl_cons, List.foldr_cons, ih, key]

/-- Observable actions performed by the draw step of the chart widget. -/
inductive DrawAction where
  | syncGui
  | fitContent
  | autoScalePane (i : Nat)
  | updateTimeAxis
  | setPaneState (i : Nat)
  | paintPane (i : Nat) (level : InvalidationLevel)
  | paintTimeAxis (level : InvalidationLevel)
deriving DecidableEq, Repr

namespace ChartWidget

/-- The pane-widget resync of syncGuiWithModel, modelled on the widget
list: pop surplus widgets from the end while the actual count exceeds the
target count, then push one new widget per missing model pane. -/
def syncPaneWidgets (widgets : List Nat) (targetCount : Nat) : List Nat :=
  widgets.take targetCount ++ (List.range targetCount).drop widgets.length

theorem syncPaneWidgets_length (widgets : List Nat) (targetCount : Nat) :
    (syncPaneWidgets widgets targetCount).length = targetCount := by
  simp [syncPaneWidgets]
  omega

/-- The paint method: paints every pane widget with the level that
invalidateForPane extracts for its index, then the time axis with the
full invalidation level. -/
def paint (invalidateMask : InvalidateMask) (paneWidgetCount : Nat) : List DrawAction :=
  (List.range paneWidgetCount).map
    (fun i => DrawAction.paintPane i (invalidateMask.invalidateForPane i).level) ++
  [DrawAction.paintTimeAxis invalidateMask.fullInvalidation]

/-- The drawImpl method as the sequence of actions it performs: on Full
invalidation it resyncs the GUI with the model (pane widget list, layout),
applies fit-content if requested, momentarily autoscales each flagged pane,
updates the time axis and refreshes each pane widget state; on Light
invalidation it applies fit-content if requested and updates the time
axis; in every case it then paints.  After the Full branch the pane widget
count equals the model pane count. -/
def drawImpl (invalidateMask : InvalidateMask) (modelPaneCount paneWidgetCount : Nat) :
    List DrawAction :=
  (if invalidateMask.fullInvalidation = InvalidationLevel.Full then
    [DrawAction.syncGui] ++
    (if invalidateMask.getFitContent then [DrawAction.fitContent] else []) ++
    ((List.range modelPaneCount).filter
      (fun i => (invalidateMask.invalidateForPane i).autoScale)).map DrawAction.autoScalePane ++
    [DrawAction.updateTimeAxis] ++
    (List.range modelPaneCount).map DrawAction.setPaneState
  else if invalidateMask.fullInvalidation = InvalidationLevel.Light then
    (if invalidateMask.getFitContent then [DrawAction.fitContent] else []) ++
    [DrawAction.updateTimeAxis]
  else []) ++
  paint invalidateMask
    (if invalidateMask.fullInvalidation = InvalidationLevel.Full then modelPaneCount
     else paneWidgetCount)

end ChartWidget

/-- The host animation-frame scheduler: the list of scheduled callback ids
that have neither fired nor been cancelled, and the next id to hand out
(requestAnimationFrame ids are positive, so nextId starts at 1). -/
structure RafHost where
  pending : List Nat
  nextId : Nat
deriving DecidableEq, Repr

/-- requestAnimationFrame: returns a fresh nonzero id and registers it. -/
def RafHost.request (host : RafHost) : Nat × RafHost :=
  (host.nextId, { pending := host.pending ++ [host.nextId], nextId := host.nextId + 1 })

/-- cancelAnimationFrame: deregisters the given id. -/
def RafHost.cancel (host : RafHost) (id : Nat) : RafHost :=
  { pending := host.pending.filter (fun x => decide (x ≠ id)), nextId := host.nextId }

/-- The fields of the ChartWidget that drive the deferred-paint protocol:
the accumulated pending mask, the drawPlanned flag, the stored
animation-frame request id, and the stored container dimensions. -/
structure ChartWidgetState where
  invalidateMask : Option InvalidateMask
  drawPlanned : Bool
  drawRafId : Nat
  height : ℚ
  width : ℚ
deriving DecidableEq

/-- The widget together with its host scheduler and the record of
drawImpl executions (each entry is the mask a draw consumed). -/
structure ChartSys where
  host : RafHost
  widget : ChartWidgetState
  draws : List InvalidateMask
deriving DecidableEq

namespace ChartWidget

/-- The invalidateHandler: merge the incoming mask into the pending one
(or store it if none is pending); if no draw is planned, mark one planned
and schedule a single animation-frame callback, remembering its id. -/
def invalidateHandler (s : ChartSys) (mask : InvalidateMask) : ChartSys :=
  let merged : Option InvalidateMask :=
    match s.widget.invalidateMask with
    | some m => some (m.merge mask)
    | none => some mask
  if s.widget.drawPlanned then
    { s with widget := { s.widget with invalidateMask := merged } }
  else
    let req := s.host.request
    { host := req.2
      widget := { s.widget with invalidateMask := merged, drawPlanned := true, drawRafId := req.1 }
      draws := s.draws }

/-- The host fires a scheduled callback: only a still-pending id can fire,
and it fires once.  The registered callback clears drawPlanned and the
stored id, and if a mask is pending it runs drawImpl on it and clears it. -/
def fireRaf (s : ChartSys) (id : Nat) : ChartSys :=
  if id ∈ s.host.pending then
    let host := s.host.cancel id
    match s.widget.invalidateMask with
    | some m =>
      { host := host
        widget := { s.widget with invalidateMask := none, drawPlanned := false, drawRafId := 0 }
        draws := s.draws ++ [m] }
    | none =>
      { host := host
        widget := { s.widget with drawPlanned := false, drawRafId := 0 }
        draws := s.draws }
  else s

/-- The destroy method, restricted to its scheduling effect: if a stored
animation-frame id is nonzero, cancel it. -/
def destroy (s : ChartSys) : ChartSys :=
  if s.widget.drawRafId ≠ 0 then { s with host := s.host.cancel s.widget.drawRafId } else s

/-- Modelled from the spec: ChartModel.fullUpdate of model/chart-model is
missing from the sources; per the spec it raises a Full-severity
invalidation routed to the controller through the invalidation handler
(the deferred path). -/
def modelFullUpdate (s : ChartSys) : ChartSys :=
  invalidateHandler s (InvalidateMask.ofLevel InvalidationLevel.Full)

/-- The resize method: a no-op when the requested dimensions equal the
stored ones; otherwise store the new dimensions and either execute a
Full-severity drawImpl synchronously (forceRepaint) or request a full
update through the deferred invalidation path. -/
def resize (s : ChartSys) (height width : ℚ) (forceRepaint : Bool) : ChartSys :=
  if s.widget.height = height ∧ s.widget.width = width then s
  else
    let s1 : ChartSys := { s with widget := { s.widget with height := height, width := width } }
    if forceRepaint then
      { s1 with draws := s1.draws ++ [InvalidateMask.ofLevel InvalidationLevel.Full] }
    else
      modelFullUpdate s1

/-- External events driving the widget between construction and destroy. -/
inductive ChartEvent where
  | invalidate (mask : InvalidateMask)
  | frame (id : Nat)
  | resizeTo (height width : ℚ) (force : Bool)

/-- One event step of the widget system. -/
def chartStep (s : ChartSys) : ChartEvent → ChartSys
  | ChartEvent.invalidate mask => invalidateHandler s mask
  | ChartEvent.frame id => fireRaf s id
  | ChartEvent.resizeTo height width force => resize s height width force

/-- Run a sequence of events. -/
def chartRun (s : ChartSys) (es : List ChartEvent) : ChartSys :=
  es.foldl chartStep s

/-- The freshly constructed widget: nothing pending, nothing planned,
stored id zero, given container dimensions. -/
def chartInit (height width : ℚ) : ChartSys :=
  { host := { pending := [], nextId := 1 }
    widget := { invalidateMask := none, drawPlanned := false, drawRafId := 0
                height := height, width := width }
    draws := [] }

/-- The controller scheduling invariant: the pending-callback list of the
host is exactly the singleton of the stored id while a draw is planned
(and that id is nonzero), and empty with a zero stored id and no pending
mask while idle. -/
def WidgetInv (s : ChartSys) : Prop :=
  1 ≤ s.host.nextId ∧
  (s.widget.drawPlanned = true → s.host.pending = [s.widget.drawRafId] ∧ s.widget.drawRafId ≠ 0) ∧
  (s.widget.drawPlanned = false →
    s.host.pending = [] ∧ s.widget.drawRafId = 0 ∧ s.widget.invalidateMask = none)

theorem widgetInv_chartInit (height width : ℚ) : WidgetInv (chartInit height width) :=
  ⟨by simp [chartInit], by simp [chartInit], by simp [chartInit]⟩

theorem widgetInv_invalidateHandler (s : ChartSys) (mask : InvalidateMask)
    (hs : WidgetInv s) : WidgetInv (invalidateHandler s mask) := by
  obtain ⟨h1, h2, h3⟩ := hs
  by_cases hp : s.widget.drawPlanned
  · obtain ⟨hpend, hid⟩ := h2 hp
    refine ⟨?_, ?_, ?_⟩ <;> simp [invalidateHandler, hp, hpend, hid, h1]
  · have h3x := h3 (by simpa using hp)
    refine ⟨?_, ?_, ?_⟩ <;>
      simp [invalidateHandler, hp, RafHost.request, h3x.1, h3x.2.1] <;> omega

theorem widgetInv_fireRaf (s : ChartSys) (id : Nat) (hs : WidgetInv s) :
    WidgetInv (fireRaf s id) := by
  obtain ⟨h1, h2, h3⟩ := hs
  by_cases hm : id ∈ s.host.pending
  · by_cases hp : s.widget.drawPlanned
    · obtain ⟨hpend, hid⟩ := h2 hp
      have hide : id = s.widget.drawRafId := by
        rw [hpend] at hm; simpa using hm
      cases hmask : s.widget.invalidateMask with
      | some m =>
        refine ⟨?_, ?_, ?_⟩ <;>
          simp [fireRaf, hm, hmask, RafHost.cancel, hpend, hide, h1]
      | none =>
        refine ⟨?_, ?_, ?_⟩ <;>
          simp [fireRaf, hm, hmask, RafHost.cancel, hpend, hide, h1]
    · have h3x := h3 (by simpa using hp)
      rw [h3x.1] at hm
      simp at hm
  · simp only [fireRaf, hm, if_false]
    exact ⟨h1, h2, h3⟩

theorem widgetInv_resize (s : ChartSys) (height width : ℚ) (force : Bool)
    (hs : WidgetInv s) : WidgetInv (resize s height width force) := by
  obtain ⟨h1, h2, h3⟩ := hs
  by_cases heq : s.widget.height = height ∧ s.widget.width = width
  · simp [resize, heq]
    exact ⟨h1, h2, h3⟩
  · cases force with
    | true =>
      refine ⟨?_, ?_, ?_⟩ <;> simp [resize, heq, h1]
      · intro hp; exact h2 hp
      · intro hp; exact h3 hp
    | false =>
      simp only [resize, heq, if_false]
      exact widgetInv_invalidateHandler _ _ ⟨h1, h2, h3⟩

theorem widgetInv_chartStep (s : ChartSys) (e : ChartEvent) (hs : WidgetInv s) :
    WidgetInv (chartStep s e) := by
  cases e with
  | invalidate mask => exact widgetInv_invalidateHandler s mask hs
  | frame id => exact widgetInv_fireRaf s id hs
  | resizeTo height width force => exact widgetInv_resize s height width force hs

theorem widgetInv_chartRun (s : ChartSys) (es : List ChartEvent) (hs : WidgetInv s) :
    WidgetInv (chartRun s es) := by
  induction es generalizing s with
  | nil => exact hs
  | cons e rest ih => exact ih (chartStep s e) (widgetInv_chartStep s e hs)

end ChartWidget

/-- C2: the controller is a two-state machine on the drawPlanned flag: in
every reachable state the scheduling invariant holds and at most one paint
callback is outstanding; an invalidation in the Idle state schedules
exactly one deferred callback, stores the mask, and enters PaintScheduled;
an invalidation while PaintScheduled only merges into the pending mask and
leaves the host scheduler untouched; when the callback fires it consumes
and clears the pending mask, executes the draw on it, and returns to Idle. -/
theorem c2_two_state_machine :
    (∀ (height width : ℚ) (es : List ChartWidget.ChartEvent),
      ChartWidget.WidgetInv (ChartWidget.chartRun (ChartWidget.chartInit height width) es)) ∧
    (∀ s : ChartSys, ChartWidget.WidgetInv s →
      s.host.pending.length ≤ 1 ∧
      (s.widget.drawPlanned = false → ∀ mask : InvalidateMask,
        (ChartWidget.invalidateHandler s mask).widget.drawPlanned = true ∧
        (ChartWidget.invalidateHandler s mask).host.pending.length = 1 ∧
        (ChartWidget.invalidateHandler s mask).widget.invalidateMask = some mask ∧
        (ChartWidget.invalidateHandler s mask).draws = s.draws) ∧
      (s.widget.drawPlanned = true → ∀ mask : InvalidateMask,
        (ChartWidget.invalidateHandler s mask).host = s.host ∧
        (ChartWidget.invalidateHandler s mask).widget.drawPlanned = true ∧
        (ChartWidget.invalidateHandler s mask).widget.drawRafId = s.widget.drawRafId ∧
        (ChartWidget.invalidateHandler s mask).draws = s.draws ∧
        (∀ pm : InvalidateMask, s.widget.invalidateMask = some pm →
          (ChartWidget.invalidateHandler s mask).widget.invalidateMask =
            some (pm.merge mask))) ∧
      (∀ pm : InvalidateMask, s.widget.invalidateMask = some pm →
        s.widget.drawPlanned = true →
        (ChartWidget.fireRaf s s.widget.drawRafId).widget.drawPlanned = false ∧
        (ChartWidget.fireRaf s s.widget.drawRafId).widget.invalidateMask = none ∧
        (ChartWidget.fireRaf s s.widget.drawRafId).widget.drawRafId = 0 ∧
        (ChartWidget.fireRaf s s.widget.drawRafId).host.pending = [] ∧
        (ChartWidget.fireRaf s s.widget.drawRafId).draws = s.draws ++ [pm])) := by
  constructor
  · intro height width es
    exact ChartWidget.widgetInv_chartRun _ es (ChartWidget.widgetInv_chartInit height width)
  · intro s hs
    obtain ⟨h1, h2, h3⟩ := hs
    refine ⟨?_, ?_, ?_, ?_⟩
    · by_cases hp : s.widget.drawPlanned
      · rw [(h2 hp).1]; simp
      · rw [(h3 (by simpa using hp)).1]; simp
    · intro hp mask
      have h3x := h3 hp
      refine ⟨?_, ?_, ?_, ?_⟩ <;>
        simp [ChartWidget.invalidateHandler, hp, RafHost.request, h3x.1, h3x.2.2]
    · intro hp mask
      refine ⟨?_, ?_, ?_, ?_, ?_⟩ <;>
        simp [ChartWidget.invalidateHandler, hp]
      intro pm hpm
      simp [hpm]
    · intro pm hpm hp
      have hpend := (h2 hp).1
      have hmem : s.widget.drawRafId ∈ s.host.pending := by rw [hpend]; simp
      refine ⟨?_, ?_, ?_, ?_, ?_⟩ <;>
        simp [ChartWidget.fireRaf, hmem, hpm, RafHost.cancel, hpend]

/-- C2 witness: in the freshly constructed widget (an Idle state) a single
invalidation enters PaintScheduled with exactly one scheduled callback. -/
theorem c2_two_state_machine_witness :
    (ChartWidget.invalidateHandler (ChartWidget.chartInit 100 200)
      (InvalidateMask.ofLevel InvalidationLevel.Light)).widget.drawPlanned = true ∧
    (ChartWidget.invalidateHandler (ChartWidget.chartInit 100 200)
      (InvalidateMask.ofLevel InvalidationLevel.Light)).host.pending.length = 1 := by
  have h := (c2_two_state_machine.2 (ChartWidget.chartInit 100 200)
      (ChartWidget.widgetInv_chartInit 100 200)).2.1
    (by rfl) (InvalidateMask.ofLevel InvalidationLevel.Light)
  exact ⟨h.1, h.2.1⟩

/-- C3 counterexample: a Light-severity mask with the fit-content flag set
makes the draw step apply fit-content, so fit-content application is not
reserved to the Full branch. -/
theorem c3_light_fitcontent_counterexample :
    (InvalidateMask.mk InvalidationLevel.Light ∅ true).fullInvalidation =
      InvalidationLevel.Light ∧
    DrawAction.fitContent ∈
      ChartWidget.drawImpl (InvalidateMask.mk InvalidationLevel.Light ∅ true) 1 1 := by
  constructor
  · rfl
  · simp [ChartWidget.drawImpl, ChartWidget.paint, InvalidateMask.fullInvalidation,
      InvalidateMask.getFitContent]

/-- C3 (amended): on Full severity the draw step resyncs the widget list
to the model pane count (and only then), applies fit-content iff
requested, autoscales exactly the flagged panes, updates the time axis and
paints every model pane; on Light severity it performs no structural
resync, no autoscale and no pane-state refresh, but applies fit-content
iff requested, updates the time axis and paints every existing pane
widget (autoscale is reserved to the Full branch; fit-content is applied
in both the Full and the Light branch). -/
theorem c3_draw_demux (m : InvalidateMask) (n w : Nat) :
    (DrawAction.syncGui ∈ ChartWidget.drawImpl m n w ↔
      m.fullInvalidation = InvalidationLevel.Full) ∧
    (∀ widgets : List Nat, (ChartWidget.syncPaneWidgets widgets n).length = n) ∧
    (m.fullInvalidation = InvalidationLevel.Full →
      (DrawAction.fitContent ∈ ChartWidget.drawImpl m n w ↔ m.getFitContent = true) ∧
      (∀ i : Nat, DrawAction.autoScalePane i ∈ ChartWidget.drawImpl m n w ↔
        i < n ∧ (m.invalidateForPane i).autoScale = true) ∧
      DrawAction.updateTimeAxis ∈ ChartWidget.drawImpl m n w ∧
      (∀ i : Nat, i < n →
        DrawAction.paintPane i (m.invalidateForPane i).level ∈ ChartWidget.drawImpl m n w)) ∧
    (m.fullInvalidation = InvalidationLevel.Light →
      DrawAction.syncGui ∉ ChartWidget.drawImpl m n w ∧
      (∀ i : Nat, DrawAction.autoScalePane i ∉ ChartWidget.drawImpl m n w) ∧
      (∀ i : Nat, DrawAction.setPaneState i ∉ ChartWidget.drawImpl m n w) ∧
      DrawAction.updateTimeAxis ∈ ChartWidget.drawImpl m n w ∧
      (DrawAction.fitContent ∈ ChartWidget.drawImpl m n w ↔ m.getFitContent = true) ∧
      (∀ i : Nat, i < w →
        DrawAction.paintPane i (m.invalidateForPane i).level ∈ ChartWidget.drawImpl m n w)) := by
  refine ⟨?_, fun widgets => ChartWidget.syncPaneWidgets_length widgets n, ?_, ?_⟩
  · constructor
    · intro hmem
      by_contra hfull
      rcases hlevel : m.fullInvalidation with _ | _ | _ <;>
        simp [ChartWidget.drawImpl, ChartWidget.paint, hlevel, hfull] at hmem <;>
        rcases hmem with hmem | hmem <;> simp_all
    · intro hfull
      simp [ChartWidget.drawImpl, hfull]
  · intro hfull
    refine ⟨?_, ?_, ?_, ?_⟩
    · cases hfit : m.getFitContent <;>
        simp [ChartWidget.drawImpl, ChartWidget.paint, hfull, hfit]
    · intro i
      cases hfit : m.getFitContent <;>
        simp [ChartWidget.drawImpl, ChartWidget.paint, hfull, hfit,
          InvalidateMask.invalidateForPane] <;>
        tauto
    · simp [ChartWidget.drawImpl, ChartWidget.paint, hfull]
    · intro i hi
      simp [ChartWidget.drawImpl, ChartWidget.paint, hfull]
      tauto
  · intro hlight
    have hfull : ¬ m.fullInvalidation = InvalidationLevel.Full := by
      rw [hlight]; intro hcontra; cases hcontra
    refine ⟨?_, ?_, ?_, ?_, ?_, ?_⟩
    · cases hfit : m.getFitContent <;>
        simp [ChartWidget.drawImpl, ChartWidget.paint, hlight, hfull, hfit]
    · intro i
      cases hfit : m.getFitContent <;>
        simp [ChartWidget.drawImpl, ChartWidget.paint, hlight, hfull, hfit]
    · intro i
      cases hfit : m.getFitContent <;>
        simp [ChartWidget.drawImpl, ChartWidget.paint, hlight, hfull, hfit]
    · simp [ChartWidget.drawImpl, ChartWidget.paint, hlight, hfull]
    · cases hfit : m.getFitContent <;>
        simp [ChartWidget.drawImpl, ChartWidget.paint, hlight, hfull, hfit]
    · intro i hi
      cases hfit : m.getFitContent <;>
        simp [ChartWidget.drawImpl, ChartWidget.paint, hlight, hfull, hfit] <;>
        tauto

/-- C3 witness: for a concrete Full mask with fit-content and an autoscale
flag on pane 0, the draw step applies fit-content. -/
theorem c3_draw_demux_witness :
    (InvalidateMask.mk InvalidationLevel.Full {0} true).fullInvalidation =
      InvalidationLevel.Full ∧
    (DrawAction.fitContent ∈
        ChartWidget.drawImpl (InvalidateMask.mk InvalidationLevel.Full {0} true) 2 1 ↔
      (InvalidateMask.mk InvalidationLevel.Full {0} true).getFitContent = true) :=
  ⟨rfl, ((c3_draw_demux (InvalidateMask.mk InvalidationLevel.Full {0} true) 2 1).2.2.1 rfl).1⟩

/-- C4: resize is a no-op when the requested dimensions equal the stored
ones, for every value of forceRepaint; otherwise it stores the new
dimensions and, when forced, executes a Full-severity draw synchronously
within the call (no callback is scheduled), else routes a Full update
through the deferred invalidation path. -/
theorem c4_resize_contract :
    (∀ (s : ChartSys) (height width : ℚ) (force : Bool),
      s.widget.height = height → s.widget.width = width →
      ChartWidget.resize s height width force = s) ∧
    (∀ (s : ChartSys) (height width : ℚ),
      ¬(s.widget.height = height ∧ s.widget.width = width) →
      (ChartWidget.resize s height width true).widget.height = height ∧
      (ChartWidget.resize s height width true).widget.width = width ∧
      (ChartWidget.resize s height width true).draws =
        s.draws ++ [InvalidateMask.ofLevel InvalidationLevel.Full] ∧
      (ChartWidget.resize s height width true).host = s.host ∧
      (ChartWidget.resize s height width true).widget.drawPlanned =
        s.widget.drawPlanned ∧
      ChartWidget.resize s height width false =
        ChartWidget.invalidateHandler
          { s with widget := { s.widget with height := height, width := width } }
          (InvalidateMask.ofLevel InvalidationLevel.Full)) := by
  constructor
  · intro s height width force hh hw
    simp [ChartWidget.resize, hh, hw]
  · intro s height width hne
    refine ⟨?_, ?_, ?_, ?_, ?_, ?_⟩ <;>
      simp [ChartWidget.resize, ChartWidget.modelFullUpdate, hne]

/-- C4 witness: resizing the freshly constructed widget to its current
dimensions changes nothing, and resizing it to new dimensions with
forceRepaint executes one synchronous Full draw. -/
theorem c4_resize_contract_witness :
    ChartWidget.resize (ChartWidget.chartInit 100 200) 100 200 true =
      ChartWidget.chartInit 100 200 ∧
    (ChartWidget.resize (ChartWidget.chartInit 100 200) 150 200 true).draws =
      (ChartWidget.chartInit 100 200).draws ++
        [InvalidateMask.ofLevel InvalidationLevel.Full] := by
  constructor
  · exact c4_resize_contract.1 (ChartWidget.chartInit 100 200) 100 200 true rfl rfl
  · exact (c4_resize_contract.2 (ChartWidget.chartInit 100 200) 150 200
      (by simp [ChartWidget.chartInit])).2.2.1

/-- C8: from every reachable widget state, destroy cancels the outstanding
scheduled paint callback (the pending animation-frame request, identified
by the nonzero stored id), so the host scheduler holds no pending callback
after destroy and no frame event after destroy can fire a paint. -/
theorem c8_destroy_cancels (height width : ℚ) (es : List ChartWidget.ChartEvent) :
    (ChartWidget.destroy
      (ChartWidget.chartRun (ChartWidget.chartInit height width) es)).host.pending = [] ∧
    (∀ id : Nat,
      ChartWidget.fireRaf
        (ChartWidget.destroy
          (ChartWidget.chartRun (ChartWidget.chartInit height width) es)) id =
      ChartWidget.destroy
        (ChartWidget.chartRun (ChartWidget.chartInit height width) es)) := by
  have hinv := ChartWidget.widgetInv_chartRun _ es
    (ChartWidget.widgetInv_chartInit height width)
  obtain ⟨h1, h2, h3⟩ := hinv
  have hpend : (ChartWidget.destroy
      (ChartWidget.chartRun (ChartWidget.chartInit height width) es)).host.pending = [] := by
    by_cases hp : (ChartWidget.chartRun (ChartWidget.chartInit height width) es).widget.drawPlanned
    · obtain ⟨hpl, hid⟩ := h2 hp
      simp [ChartWidget.destroy, hid, RafHost.cancel, hpl]
    · have h3x := h3 (by simpa using hp)
      simp [ChartWidget.destroy, h3x.2.1, h3x.1]
  refine ⟨hpend, ?_⟩
  intro id
  simp [ChartWidget.fireRaf, hpend]

/-- Kind of a pane view update (iupdatable-pane-view UpdateType). -/
inductive UpdateType where
  | data
  | other
deriving DecidableEq, Repr

/-- A half-open range of offsets into the stored item list
(time-data SeriesItemsIndexesRange). -/
structure SeriesItemsIndexesRange where
  fromIndex : Nat
  toIndex : Nat
deriving DecidableEq, Repr

namespace SeriesPaneViewBase

/-- The two dirty flags of a series pane view: geometry-dirty
(invalidated) and data-dirty (dataInvalidated). -/
structure PaneViewFlags where
  invalidated : Bool
  dataInvalidated : Bool
deriving DecidableEq, Repr

/-- The update method: always set the geometry-dirty flag, and set the
data-dirty flag when the update type is data. -/
def update (f : PaneViewFlags) (updateType : Option UpdateType) : PaneViewFlags :=
  { invalidated := true
    dataInvalidated :=
      if updateType = some UpdateType.data then true else f.dataInvalidated }

/-- The makeValid lazy resolution step: rebuild raw points when
data-dirty, recompute projected points when geometry-dirty, clearing each
flag after its work.  Returns the new flags, whether the raw item list
was rebuilt, and whether the projected points were recomputed. -/
def makeValid (f : PaneViewFlags) : PaneViewFlags × Bool × Bool :=
  let f1 := if f.dataInvalidated then { f with dataInvalidated := false } else f
  let f2 := if f1.invalidated then { f1 with invalidated := false } else f1
  (f2, f.dataInvalidated, f1.invalidated)

/-- Modelled from the spec: visibleTimedValues of model/time-data is
missing from the sources; per the spec it returns the half-open offset
window of the stored positions that fall inside the visible index range,
for an index-sorted item list. -/
def visibleTimedValues (times : List Int) (fromIdx toIdx : Int) :
    SeriesItemsIndexesRange :=
  { fromIndex := (times.filter (fun t => decide (t < fromIdx))).length
    toIndex := (times.filter (fun t => decide (t < toIdx))).length }

/-- The inputs that the updatePoints recomputation of a series pane view
reads from its collaborators: emptiness of the time scale, emptiness of
the price scale of the series, the visible-bars range of the time scale
(null when nothing is visible), and the stored bar count of the series. -/
structure UpdatePointsEnv where
  timeScaleEmpty : Bool
  priceScaleEmpty : Bool
  visibleBars : Option (Int × Int)
  barsSize : Nat
deriving DecidableEq

/-- The updatePoints recomputation: on an empty time scale, empty price
scale, null visible-bars range, or zero stored bars, set the visible
items range to the explicit null sentinel and perform no coordinate
conversion; otherwise compute the visible offsets window and convert to
coordinates.  The second component records whether convertToCoordinates
was invoked. -/
def updatePoints (env : UpdatePointsEnv) (items : List Int) :
    Option SeriesItemsIndexesRange × Bool :=
  if env.timeScaleEmpty || env.priceScaleEmpty then (none, false)
  else
    match env.visibleBars with
    | none => (none, false)
    | some vb =>
      if env.barsSize = 0 then (none, false)
      else (some (visibleTimedValues items vb.1 vb.2), true)

end SeriesPaneViewBase

/-- C5: the pane view recomputation sets the visible items range to the
explicit null sentinel exactly when the time scale is empty, the price
scale is empty, the visible-bars range is null, or the stored bar count
is zero; and coordinate conversion is performed exactly when the range is
not the null sentinel, i.e. only when all emptiness conditions fail. -/
theorem c5_empty_sentinel (env : SeriesPaneViewBase.UpdatePointsEnv) (items : List Int) :
    ((SeriesPaneViewBase.updatePoints env items).1 = none ↔
      (env.timeScaleEmpty = true ∨ env.priceScaleEmpty = true ∨
        env.visibleBars = none ∨ env.barsSize = 0)) ∧
    ((SeriesPaneViewBase.updatePoints env items).2 = false ↔
      (SeriesPaneViewBase.updatePoints env items).1 = none) := by
  cases hts : env.timeScaleEmpty <;> cases hps : env.priceScaleEmpty <;>
    cases hvb : env.visibleBars <;>
    simp [SeriesPaneViewBase.updatePoints, hts, hps, hvb]
  by_cases hz : env.barsSize = 0 <;> simp [hz]

/-- C6: for every pane view state and update kind, update always sets the
geometry-dirty flag, and writes the data-dirty flag exactly when the kind
is data (otherwise the flag keeps its previous value); the makeValid
resolution rebuilds raw points exactly when data-dirty, recomputes the
projected points exactly when geometry-dirty, and leaves both flags
cleared. -/
theorem c6_dirty_flag_protocol (f : SeriesPaneViewBase.PaneViewFlags)
    (updateType : Option UpdateType) :
    (SeriesPaneViewBase.update f updateType).invalidated = true ∧
    (SeriesPaneViewBase.update f updateType).dataInvalidated =
      (f.dataInvalidated || decide (updateType = some UpdateType.data)) ∧
    (SeriesPaneViewBase.makeValid f).2.1 = f.dataInvalidated ∧
    (SeriesPaneViewBase.makeValid f).2.2 = f.invalidated ∧
    (SeriesPaneViewBase.makeValid f).1.invalidated = false ∧
    (SeriesPaneViewBase.makeValid f).1.dataInvalidated = false := by
  refine ⟨rfl, ?_, ?_, ?_, ?_, ?_⟩
  · by_cases hk : updateType = some UpdateType.data <;>
      simp [SeriesPaneViewBase.update, hk]
  all_goals
    cases hd : f.dataInvalidated <;> cases hi : f.invalidated <;>
      simp [SeriesPaneViewBase.makeValid, hd, hi]

/-- A JavaScript number as the draw-line guard observes it: a finite
rational, NaN, or an infinity. -/
inductive JSNum where
  | fin (q : ℚ)
  | nan
  | posInf
  | negInf
deriving DecidableEq

/-- The isFinite predicate on a JavaScript number. -/
def JSNum.isFinite : JSNum → Bool
  | .fin _ => true
  | .nan => false
  | .posInf => false
  | .negInf => false

/-- Line styles of the renderer (renderers/draw-line LineStyle). -/
inductive LineStyle where
  | Solid
  | Dotted
  | Dashed
  | LargeDashed
  | SparseDotted
deriving DecidableEq, Repr

/-- The dash pattern table of setLineStyle, in units of the context line
width: Solid [], Dotted [w, 2w], Dashed [5w, 6w], LargeDashed [6w, 6w],
SparseDotted [w, 4w]. -/
def dashPattern (lineWidth : ℚ) : LineStyle → List ℚ
  | LineStyle.Solid => []
  | LineStyle.Dotted => [lineWidth, 2 * lineWidth]
  | LineStyle.Dashed => [5 * lineWidth, 6 * lineWidth]
  | LineStyle.LargeDashed => [6 * lineWidth, 6 * lineWidth]
  | LineStyle.SparseDotted => [lineWidth, 4 * lineWidth]

/-- Drawing operations recorded against the canvas context. -/
inductive CanvasOp where
  | save
  | setLineDash (pattern : List ℚ)
  | beginPath
  | moveTo (x y : JSNum)
  | lineTo (x y : JSNum)
  | stroke
  | restore
deriving DecidableEq

/-- The setLineStyle function: sets the dash pattern selected by the
style from the pattern table. -/
def setLineStyle (lineWidth : ℚ) (style : LineStyle) : List CanvasOp :=
  [CanvasOp.setLineDash (dashPattern lineWidth style)]

/-- The drawLine function as the sequence of context operations it
performs: nothing at all when any coordinate is non-finite, otherwise
save, set the dash pattern for the style, begin a path, one moveTo, one
lineTo, one stroke, restore. -/
def drawLine (lineWidth : ℚ) (x1 y1 x2 y2 : JSNum) (style : LineStyle) : List CanvasOp :=
  if !x1.isFinite || !x2.isFinite || !y1.isFinite || !y2.isFinite then []
  else
    [CanvasOp.save] ++ setLineStyle lineWidth style ++
    [CanvasOp.beginPath, CanvasOp.moveTo x1 y1, CanvasOp.lineTo x2 y2,
     CanvasOp.stroke, CanvasOp.restore]

/-- C7: drawLine performs no drawing operation at all when any of the four
coordinates is non-finite; when all four are finite it strokes exactly one
line segment (one moveTo, one lineTo, one stroke) with the dash pattern
that the given style selects. -/
theorem c7_drawline_guard (lineWidth : ℚ) (x1 y1 x2 y2 : JSNum) (style : LineStyle) :
    (¬(x1.isFinite = true ∧ y1.isFinite = true ∧ x2.isFinite = true ∧ y2.isFinite = true) →
      drawLine lineWidth x1 y1 x2 y2 style = []) ∧
    (x1.isFinite = true → y1.isFinite = true → x2.isFinite = true → y2.isFinite = true →
      (drawLine lineWidth x1 y1 x2 y2 style).count CanvasOp.stroke = 1 ∧
      (drawLine lineWidth x1 y1 x2 y2 style).count (CanvasOp.moveTo x1 y1) = 1 ∧
      (drawLine lineWidth x1 y1 x2 y2 style).count (CanvasOp.lineTo x2 y2) = 1 ∧
      CanvasOp.setLineDash (dashPattern lineWidth style) ∈
        drawLine lineWidth x1 y1 x2 y2 style) := by
  constructor
  · intro hbad
    rcases hx1 : x1.isFinite <;> rcases hy1 : y1.isFinite <;>
      rcases hx2 : x2.isFinite <;> rcases hy2 : y2.isFinite <;>
      simp [drawLine, hx1, hy1, hx2, hy2] <;> simp_all
  · intro hx1 hy1 hx2 hy2
    refine ⟨?_, ?_, ?_, ?_⟩ <;>
      simp [drawLine, setLineStyle, hx1, hy1, hx2, hy2, List.count_cons,
        List.count_append]

/-- C7 witness: at a NaN coordinate nothing is drawn, and at concrete
finite coordinates with the Dotted style exactly one stroke occurs. -/
theorem c7_drawline_guard_witness :
    drawLine 1 JSNum.nan (JSNum.fin 2) (JSNum.fin 3) (JSNum.fin 4) LineStyle.Solid = [] ∧
    (drawLine 1 (JSNum.fin 1) (JSNum.fin 2) (JSNum.fin 3) (JSNum.fin 4)
      LineStyle.Dotted).count CanvasOp.stroke = 1 := by
  constructor
  · exact (c7_drawline_guard 1 JSNum.nan (JSNum.fin 2) (JSNum.fin 3) (JSNum.fin 4)
      LineStyle.Solid).1 (by decide)
  · exact ((c7_drawline_guard 1 (JSNum.fin 1) (JSNum.fin 2) (JSNum.fin 3) (JSNum.fin 4)
      LineStyle.Dotted).2 rfl rfl rfl rfl).1

/-- A parsed rgb color. -/
structure Rgb where
  r : Nat
  g : Nat
  b : Nat
deriving DecidableEq, Repr

/-- Value of a hexadecimal digit character, by character code. -/
def hexDigitVal (c : Char) : Option Nat :=
  if 48 ≤ c.toNat ∧ c.toNat ≤ 57 then some (c.toNat - 48)
  else if 97 ≤ c.toNat ∧ c.toNat ≤ 102 then some (c.toNat - 87)
  else if 65 ≤ c.toNat ∧ c.toNat ≤ 70 then some (c.toNat - 55)
  else none

/-- Modelled from the spec: parseRgb of helpers/color is missing from the
sources and the spec excludes color parsing utilities as external
collaborators; modelled as a pure total parser of seven-character
hash-prefixed hex color strings, defaulting to black on any other input. -/
def parseRgb (s : String) : Rgb :=
  match s.toList with
  | [h, r1, r2, g1, g2, b1, b2] =>
    if h.toNat = 35 then
      match hexDigitVal r1, hexDigitVal r2, hexDigitVal g1, hexDigitVal g2,
        hexDigitVal b1, hexDigitVal b2 with
      | some a, some b, some c, some d, some e, some f =>
        { r := 16 * a + b, g := 16 * c + d, b := 16 * e + f }
      | _, _, _, _, _, _ => { r := 0, g := 0, b := 0 }
    else { r := 0, g := 0, b := 0 }
  | _ => { r := 0, g := 0, b := 0 }

/-- Modelled from the spec: rgbToBlackWhiteString of helpers/color is
missing from the sources; per the spec it quantizes a color to black or
white by its perceptual luminance against the threshold, black when the
luminance lies under the threshold.  The luminance is the usual perceptual
weighting 0.299 r + 0.587 g + 0.114 b, compared to the threshold after
scaling both by 1000 to stay in integers. -/
def rgbToBlackWhiteString (rgb : Rgb) (threshold : Nat) : String :=
  if 299 * rgb.r + 587 * rgb.g + 114 * rgb.b < 1000 * threshold then "black" else "white"

/-- The generateTextColor method of the price axis view: quantize the
background to black or white under threshold 160 and answer the opposite
foreground. -/
def generateTextColor (color : String) : String :=
  let backColorBW := rgbToBlackWhiteString (parseRgb color) 160
  if backColorBW = "black" then "white" else "black"

/-- C9: generateTextColor is a pure function of the background string,
returns only black or white, and returns white exactly when the background
quantizes to black under the luminance threshold 160 (and black
otherwise). -/
theorem c9_generate_text_color :
    (∀ b1 b2 : String, b1 = b2 → generateTextColor b1 = generateTextColor b2) ∧
    (∀ bg : String, generateTextColor bg = "black" ∨ generateTextColor bg = "white") ∧
    (∀ bg : String, generateTextColor bg = "white" ↔
      rgbToBlackWhiteString (parseRgb bg) 160 = "black") := by
  refine ⟨fun b1 b2 h => congrArg generateTextColor h, ?_, ?_⟩
  · intro bg
    by_cases h : rgbToBlackWhiteString (parseRgb bg) 160 = "black" <;>
      simp [generateTextColor, h]
  · intro bg
    by_cases h : rgbToBlackWhiteString (parseRgb bg) 160 = "black" <;>
      simp [generateTextColor, h]

/-- C9 witness: two calls on the same concrete white background agree, and
the white background yields black text. -/
theorem c9_generate_text_color_witness :
    generateTextColor "#ffffff" = generateTextColor "#ffffff" ∧
    (generateTextColor "#ffffff" = "black" ∨ generateTextColor "#ffffff" = "white") := by
  exact ⟨c9_generate_text_color.1 "#ffffff" "#ffffff" rfl,
    c9_generate_text_color.2.1 "#ffffff"⟩

namespace ChartWidget

/-- Math.round on a nonnegative rational: floor of the value plus one
half, as JavaScript rounds the pane height computation. -/
def jsRound (q : ℚ) : ℚ :=
  ((⌊q + 1 / 2⌋ : ℤ) : ℚ)

/-- The available vertical space for panes: the container height minus
the separators and the time axis, taken as 0 when the container is
shorter than those widgets. -/
def totalPaneHeightOf (height otherWidgetHeight : ℚ) : ℚ :=
  if height < otherWidgetHeight then 0 else height - otherWidgetHeight

/-- The pane height loop of adjustSizeImpl: every pane but the last gets
the rounded share of its stretch factor, the last pane gets all the
remaining height, and each pane height is clamped to at least 2 pixels;
the accumulated height tracks the clamped heights actually assigned. -/
def paneHeightsAux (stretchPixels totalPaneHeight accumulated : ℚ) :
    List ℚ → List ℚ
  | [] => []
  | sf :: rest =>
    if rest.isEmpty then
      [max (totalPaneHeight - accumulated) 2]
    else
      (max (jsRound (sf * stretchPixels)) 2) ::
        paneHeightsAux stretchPixels totalPaneHeight
          (accumulated + max (jsRound (sf * stretchPixels)) 2) rest

/-- The pane height assignment of adjustSizeImpl: stretch pixels are the
available pane height divided by the total stretch, and the loop assigns
each pane its height. -/
def adjustPaneHeights (stretchFactors : List ℚ)
    (height separatorsHeight timeAxisHeight : ℚ) : List ℚ :=
  let totalPaneHeight := totalPaneHeightOf height (separatorsHeight + timeAxisHeight)
  paneHeightsAux (totalPaneHeight / stretchFactors.sum) totalPaneHeight 0 stretchFactors

theorem paneHeightsAux_min2 (stretchPixels totalPaneHeight : ℚ) (sfs : List ℚ) :
    ∀ accumulated : ℚ, ∀ q ∈ paneHeightsAux stretchPixels totalPaneHeight accumulated sfs,
      2 ≤ q := by
  induction sfs with
  | nil => intro acc q hq; simp [paneHeightsAux] at hq
  | cons sf rest ih =>
    intro acc q hq
    by_cases hrest : rest.isEmpty
    · simp [paneHeightsAux, hrest] at hq
      rw [hq]; exact le_max_right _ _
    · simp [paneHeightsAux, hrest] at hq
      rcases hq with hq | hq
      · rw [hq]; exact le_max_right _ _
      · exact ih _ q hq

theorem paneHeightsAux_closed_form (stretchPixels totalPaneHeight : ℚ) (sfs : List ℚ)
    (hne : sfs ≠ []) :
    ∀ accumulated : ℚ,
      paneHeightsAux stretchPixels totalPaneHeight accumulated sfs =
      sfs.dropLast.map (fun sf => max (jsRound (sf * stretchPixels)) 2) ++
      [max (totalPaneHeight - accumulated -
        (sfs.dropLast.map (fun sf => max (jsRound (sf * stretchPixels)) 2)).sum) 2] := by
  induction sfs with
  | nil => exact absurd rfl hne
  | cons sf rest ih =>
    intro acc
    cases rest with
    | nil => simp [paneHeightsAux, sub_sub]
    | cons sf2 rest2 =>
      have hrest : ¬(sf2 :: rest2).isEmpty = true := by simp
      rw [paneHeightsAux]
      simp only [hrest, if_false]
      rw [ih (by simp)]
      have hdl : (sf :: sf2 :: rest2).dropLast = sf :: (sf2 :: rest2).dropLast := rfl
      rw [hdl]
      simp [sub_sub, add_comm, add_left_comm, add_assoc]

theorem adjustPaneHeights_spec (stretchFactors : List ℚ)
    (height separatorsHeight timeAxisHeight : ℚ) (hne : stretchFactors ≠ []) :
    adjustPaneHeights stretchFactors height separatorsHeight timeAxisHeight =
      (stretchFactors.dropLast.map (fun sf => max (jsRound (sf *
        (totalPaneHeightOf height (separatorsHeight + timeAxisHeight) /
          stretchFactors.sum))) 2)) ++
      [max (totalPaneHeightOf height (separatorsHeight + timeAxisHeight) -
        (stretchFactors.dropLast.map (fun sf => max (jsRound (sf *
          (totalPaneHeightOf height (separatorsHeight + timeAxisHeight) /
            stretchFactors.sum))) 2)).sum) 2] := by
  have h := paneHeightsAux_closed_form
    (totalPaneHeightOf height (separatorsHeight + timeAxisHeight) / stretchFactors.sum)
    (totalPaneHeightOf height (separatorsHeight + timeAxisHeight)) stretchFactors hne 0
  simpa [adjustPaneHeights] using h

end ChartWidget

/-- C10: each pane is assigned a height of at least 2 pixels; every pane
except the last receives the rounded share of its stretch factor of the
available pane height (clamped to the 2-pixel minimum) while the last
pane receives all remaining height; whenever the 2-pixel minimum does
not fire the assigned heights sum exactly to the available pane height;
and the available pane height is the container height minus the
separators and the time axis, taken as 0 (never negative) when the
container is shorter than those. -/
theorem c10_pane_layout (stretchFactors : List ℚ)
    (height separatorsHeight timeAxisHeight : ℚ) :
    (∀ q ∈ ChartWidget.adjustPaneHeights stretchFactors height separatorsHeight
        timeAxisHeight, 2 ≤ q) ∧
    (stretchFactors ≠ [] →
      ChartWidget.adjustPaneHeights stretchFactors height separatorsHeight timeAxisHeight =
        (stretchFactors.dropLast.map (fun sf => max (ChartWidget.jsRound (sf *
          (ChartWidget.totalPaneHeightOf height (separatorsHeight + timeAxisHeight) /
            stretchFactors.sum))) 2)) ++
        [max (ChartWidget.totalPaneHeightOf height (separatorsHeight + timeAxisHeight) -
          (stretchFactors.dropLast.map (fun sf => max (ChartWidget.jsRound (sf *
            (ChartWidget.totalPaneHeightOf height (separatorsHeight + timeAxisHeight) /
              stretchFactors.sum))) 2)).sum) 2]) ∧
    (stretchFactors ≠ [] →
      (∀ sf ∈ stretchFactors.dropLast,
        2 ≤ ChartWidget.jsRound (sf *
          (ChartWidget.totalPaneHeightOf height (separatorsHeight + timeAxisHeight) /
            stretchFactors.sum))) →
      2 ≤ ChartWidget.totalPaneHeightOf height (separatorsHeight + timeAxisHeight) -
        (stretchFactors.dropLast.map (fun sf => max (ChartWidget.jsRound (sf *
          (ChartWidget.totalPaneHeightOf height (separatorsHeight + timeAxisHeight) /
            stretchFactors.sum))) 2)).sum →
      (ChartWidget.adjustPaneHeights stretchFactors height separatorsHeight
        timeAxisHeight).sum =
        ChartWidget.totalPaneHeightOf height (separatorsHeight + timeAxisHeight)) ∧
    (0 ≤ ChartWidget.totalPaneHeightOf height (separatorsHeight + timeAxisHeight) ∧
      (height < separatorsHeight + timeAxisHeight →
        ChartWidget.totalPaneHeightOf height (separatorsHeight + timeAxisHeight) = 0)) := by
  refine ⟨?_, ?_, ?_, ?_, ?_⟩
  · intro q hq
    exact ChartWidget.paneHeightsAux_min2 _ _ stretchFactors 0 q hq
  · intro hne
    exact ChartWidget.adjustPaneHeights_spec stretchFactors height separatorsHeight
      timeAxisHeight hne
  · intro hne hfront hlast
    rw [ChartWidget.adjustPaneHeights_spec stretchFactors height separatorsHeight
      timeAxisHeight hne]
    rw [List.sum_append]
    simp only [List.sum_cons, List.sum_nil, add_zero]
    rw [max_eq_left hlast]
    ring
  · unfold ChartWidget.totalPaneHeightOf
    by_cases hlt : height < separatorsHeight + timeAxisHeight <;> simp [hlt]
    linarith
  · intro hlt
    simp [ChartWidget.totalPaneHeightOf, hlt]

/-- C10 witness: two equal-stretch panes in a 102-pixel container with a
1-pixel separator and a 1-pixel time axis get 50 pixels each, summing
exactly to the 100 available pixels. -/
theorem c10_pane_layout_witness :
    (ChartWidget.adjustPaneHeights [1, 1] 102 1 1).sum =
      ChartWidget.totalPaneHeightOf 102 (1 + 1) := by
  refine (c10_pane_layout [1, 1] 102 1 1).2.2.1 (by simp) ?_ ?_
  · intro sf hsf
    simp at hsf
    rw [hsf]
    norm_num [ChartWidget.jsRound, ChartWidget.totalPaneHeightOf]
  · norm_num [ChartWidget.jsRound, ChartWidget.totalPaneHeightOf]
